import Mathlib

/-!
Verification of the cgo callback-adapter shim in `src/api/api_cgo.c`.

The shim contains three forwarding trampolines (`cgoStreamACallback`,
`cgoStreamBCallback`, `cgoEventCallback`) and one initialization wrapper
(`wrapper_api_Init`).  Each trampoline re-casts native pointer arguments to
address-sized unsigned integers (the C casts `(GoUintptr)p`), re-casts the
32-bit integer arguments (`(GoUint32)n`, `(GoInt32)e`) and makes exactly one
call to the corresponding host receiver.

The embedding below models addresses and unsigned values as `Nat` with the
casts made explicit as reductions modulo `2 ^ width`, signed 32-bit values as
`Int` with an explicit wrap, and a host-receiver invocation as a value of the
inductive type `HostCall` returned by the trampoline.  `w` is the platform
pointer width in bits (the width of `GoUintptr`).
-/

namespace SdrplayCgo

/-- The C cast `(GoUint32)n` applied to a C `unsigned int`: reduction modulo
`2 ^ 32`. -/
def toGoUint32 (n : Nat) : Nat := n % 2 ^ 32

/-- The C cast `(GoUintptr)p` applied to a pointer: the pointer's address,
reduced modulo `2 ^ w` where `w` is the platform pointer width. -/
def toGoUintptr (w : Nat) (addr : Nat) : Nat := addr % 2 ^ w

/-- The C cast `(GoInt32)e` applied to an `int`-valued enumeration code:
two's-complement wrap into the signed 32-bit range. -/
def toGoInt32 (i : Int) : Int := (i + 2 ^ 31) % 2 ^ 32 - 2 ^ 31

/-- Argument tuple of the native stream callbacks
`cgoStreamACallback` / `cgoStreamBCallback` (api_cgo.c lines 12-24):
`short *xi, short *xq, sdrplay_api_StreamCbParamsT *params,
unsigned int numSamples, unsigned int reset, void *cbContext`.
Pointers are represented by their addresses. -/
structure StreamCbArgs where
  xi : Nat
  xq : Nat
  params : Nat
  numSamples : Nat
  reset : Nat
  cbContext : Nat
  deriving Repr, DecidableEq

/-- Argument tuple of the native event callback `cgoEventCallback`
(api_cgo.c lines 26-31): `sdrplay_api_EventT eventId,
sdrplay_api_TunerSelectT tuner, sdrplay_api_EventParamsT *params,
void *cbContext`.  The two enumeration codes are `int`-valued. -/
structure EventCbArgs where
  eventId : Int
  tuner : Int
  params : Nat
  cbContext : Nat
  deriving Repr, DecidableEq

/-- A single invocation of a host receiver, recording which receiver was
invoked (`streamACallback`, `streamBCallback` or `eventCallback`) and the
exact argument values passed to it. -/
inductive HostCall where
  | streamA (xi xq params numSamples reset cbContext : Nat)
  | streamB (xi xq params numSamples reset cbContext : Nat)
  | event (eventId tuner : Int) (params cbContext : Nat)
  deriving Repr, DecidableEq

/-- `true` iff the host call is an invocation of `streamACallback`. -/
def HostCall.isStreamA : HostCall → Bool
  | .streamA _ _ _ _ _ _ => true
  | _ => false

/-- `true` iff the host call is an invocation of `streamBCallback`. -/
def HostCall.isStreamB : HostCall → Bool
  | .streamB _ _ _ _ _ _ => true
  | _ => false

/-- `true` iff the host call is an invocation of `eventCallback`. -/
def HostCall.isEvent : HostCall → Bool
  | .event _ _ _ _ => true
  | _ => false

/-- The `reset` argument delivered to a stream host receiver
(`0` for an event call, which carries no reset flag). -/
def HostCall.resetOf : HostCall → Nat
  | .streamA _ _ _ _ r _ => r
  | .streamB _ _ _ _ r _ => r
  | .event _ _ _ _ => 0

/-- api_cgo.c lines 12-17: the body is the single statement
`streamACallback((GoUintptr)xi, (GoUintptr)xq, (GoUintptr)params,
(GoUint32)numSamples, (GoUint32)reset, (GoUintptr)cbContext);`. -/
def cgoStreamACallback (w : Nat) (a : StreamCbArgs) : HostCall :=
  HostCall.streamA (toGoUintptr w a.xi) (toGoUintptr w a.xq)
    (toGoUintptr w a.params) (toGoUint32 a.numSamples) (toGoUint32 a.reset)
    (toGoUintptr w a.cbContext)

/-- api_cgo.c lines 19-24: the body is the single statement
`streamBCallback((GoUintptr)xi, (GoUintptr)xq, (GoUintptr)params,
(GoUint32)numSamples, (GoUint32)reset, (GoUintptr)cbContext);`. -/
def cgoStreamBCallback (w : Nat) (a : StreamCbArgs) : HostCall :=
  HostCall.streamB (toGoUintptr w a.xi) (toGoUintptr w a.xq)
    (toGoUintptr w a.params) (toGoUint32 a.numSamples) (toGoUint32 a.reset)
    (toGoUintptr w a.cbContext)

/-- api_cgo.c lines 26-31: the body is the single statement
`eventCallback((GoInt32)eventId, (GoInt32)tuner, (GoUintptr)params,
(GoUintptr)cbContext);`. -/
def cgoEventCallback (w : Nat) (a : EventCbArgs) : HostCall :=
  HostCall.event (toGoInt32 a.eventId) (toGoInt32 a.tuner)
    (toGoUintptr w a.params) (toGoUintptr w a.cbContext)

/-- Native memory visible to the shim: a map from byte addresses to byte
values.  The trampoline bodies contain no load and no store, so their
memory-explicit embeddings below thread the memory through untouched and
compute the forwarded call without consulting it. -/
def Mem : Type := Nat → Nat

/-- Memory-explicit embedding of `cgoStreamACallback`: the body performs no
load or store, so the memory state passes through unchanged. -/
def cgoStreamACallbackMem (w : Nat) (mem : Mem) (a : StreamCbArgs) :
    Mem × HostCall :=
  (mem, cgoStreamACallback w a)

/-- Memory-explicit embedding of `cgoStreamBCallback`. -/
def cgoStreamBCallbackMem (w : Nat) (mem : Mem) (a : StreamCbArgs) :
    Mem × HostCall :=
  (mem, cgoStreamBCallback w a)

/-- Memory-explicit embedding of `cgoEventCallback`. -/
def cgoEventCallbackMem (w : Nat) (mem : Mem) (a : EventCbArgs) :
    Mem × HostCall :=
  (mem, cgoEventCallback w a)

/-- The callback function table `sdrplay_api_CallbackFnsT` with its three
function-pointer slots `StreamACbFn`, `StreamBCbFn`, `EventCbFn`. -/
structure CallbackFnsT where
  StreamACbFn : StreamCbArgs → HostCall
  StreamBCbFn : StreamCbArgs → HostCall
  EventCbFn : EventCbArgs → HostCall

/-- api_cgo.c lines 33-39: `wrapper_api_Init` fills the three slots of a
local `sdrplay_api_CallbackFnsT` value with the three trampolines and calls
`sdrplay_api_Init(dev, &cbFuncs, (void*)dev)`, returning its status code.
The driver entry point `sdrplay_api_Init` belongs to the vendor library and
is taken as a parameter; the device handle `dev` (`HANDLE`, a pointer) is
represented by its address, and the cast `(void*)dev` is the identity on the
address. -/
def wrapper_api_Init (w : Nat)
    (sdrplay_api_Init : Nat → CallbackFnsT → Nat → Int) (dev : Nat) : Int :=
  let cbFuncs : CallbackFnsT :=
    { StreamACbFn := fun a => cgoStreamACallback w a
      StreamBCbFn := fun a => cgoStreamBCallback w a
      EventCbFn := fun a => cgoEventCallback w a }
  sdrplay_api_Init dev cbFuncs dev

/-- A native callback invocation as delivered by the driver: which of the
three trampoline slots the driver calls, with its argument tuple. -/
inductive NativeCall where
  | streamA (a : StreamCbArgs)
  | streamB (a : StreamCbArgs)
  | event (a : EventCbArgs)
  deriving Repr, DecidableEq

/-- Dispatch of one native callback invocation to the trampoline installed in
the corresponding slot by `wrapper_api_Init`. -/
def forwardOne (w : Nat) : NativeCall → HostCall
  | .streamA a => cgoStreamACallback w a
  | .streamB a => cgoStreamBCallback w a
  | .event a => cgoEventCallback w a

/-- The adapter's behaviour over a whole session: the driver delivers a
sequence of native callback invocations and each is forwarded in turn. -/
def runAdapter (w : Nat) : List NativeCall → List HostCall
  | [] => []
  | c :: rest => forwardOne w c :: runAdapter w rest

theorem runAdapter_eq_map (w : Nat) (calls : List NativeCall) :
    runAdapter w calls = calls.map (forwardOne w) := by
  induction calls with
  | nil => rfl
  | cons c rest ih => simp [runAdapter, ih]

theorem runAdapter_append (w : Nat) (xs ys : List NativeCall) :
    runAdapter w (xs ++ ys) = runAdapter w xs ++ runAdapter w ys := by
  simp [runAdapter_eq_map]

/-- C1: for every channel (A or B) and every native stream-callback argument
tuple whose addresses fit the platform pointer width `w` and whose
`numSamples` and `reset` are unsigned 32-bit values, the trampoline invokes
the corresponding host receiver with handle values equal to the original
addresses (the address-to-handle conversion is exact and lossless at width
`w`) and with `numSamples` and `reset` unchanged. -/
theorem streamCallback_forwards_exact (w : Nat) (a : StreamCbArgs)
    (hxi : a.xi < 2 ^ w) (hxq : a.xq < 2 ^ w) (hp : a.params < 2 ^ w)
    (hc : a.cbContext < 2 ^ w) (hn : a.numSamples < 2 ^ 32)
    (hr : a.reset < 2 ^ 32) :
    cgoStreamACallback w a
      = HostCall.streamA a.xi a.xq a.params a.numSamples a.reset a.cbContext
    ∧ cgoStreamBCallback w a
      = HostCall.streamB a.xi a.xq a.params a.numSamples a.reset a.cbContext := by
  constructor <;>
    simp [cgoStreamACallback, cgoStreamBCallback, toGoUintptr, toGoUint32,
      Nat.mod_eq_of_lt, hxi, hxq, hp, hc, hn, hr] <;> omega

/-- Witness for C1, at the spec's scenario: i-buffer address `0x1000`,
q-buffer address `0x2000`, `numSamples` 256, `reset` 0, context `0xABCD`,
on a 64-bit platform. -/
theorem streamCallback_forwards_exact_witness :
    cgoStreamACallback 64
        { xi := 0x1000, xq := 0x2000, params := 0x3000, numSamples := 256,
          reset := 0, cbContext := 0xABCD }
      = HostCall.streamA 0x1000 0x2000 0x3000 256 0 0xABCD :=
  (streamCallback_forwards_exact 64
    { xi := 0x1000, xq := 0x2000, params := 0x3000, numSamples := 256,
      reset := 0, cbContext := 0xABCD }
    (by norm_num) (by norm_num) (by norm_num) (by norm_num) (by norm_num)
    (by norm_num)).1

/-- C2: channel routing is exclusive — the stream-A trampoline always
produces an invocation of `streamACallback` and never of `streamBCallback`,
and symmetrically for the stream-B trampoline. -/
theorem channel_routing_exclusive (w : Nat) (a : StreamCbArgs) :
    (cgoStreamACallback w a).isStreamA = true
    ∧ (cgoStreamACallback w a).isStreamB = false
    ∧ (cgoStreamBCallback w a).isStreamB = true
    ∧ (cgoStreamBCallback w a).isStreamA = false := by
  refine ⟨rfl, rfl, rfl, rfl⟩

/-- C3: for every pair of `int`-valued event-kind and tuner-selector codes
(hence in the signed 32-bit range) and addresses within the pointer width,
the event trampoline invokes the host event receiver with the same two code
values and with the structure and context addresses as handles. -/
theorem eventCallback_forwards_exact (w : Nat) (a : EventCbArgs)
    (he1 : -(2 ^ 31) ≤ a.eventId) (he2 : a.eventId < 2 ^ 31)
    (ht1 : -(2 ^ 31) ≤ a.tuner) (ht2 : a.tuner < 2 ^ 31)
    (hp : a.params < 2 ^ w) (hc : a.cbContext < 2 ^ w) :
    cgoEventCallback w a
      = HostCall.event a.eventId a.tuner a.params a.cbContext := by
  have hwrap : ∀ i : Int, -(2 ^ 31) ≤ i → i < 2 ^ 31 → toGoInt32 i = i := by
    intro i h1 h2
    unfold toGoInt32
    omega
  unfold cgoEventCallback toGoUintptr
  rw [hwrap a.eventId he1 he2, hwrap a.tuner ht1 ht2,
    Nat.mod_eq_of_lt hp, Nat.mod_eq_of_lt hc]

/-- Witness for C3: event code 3, tuner code 1, structure address `0x10`,
context `0x20`, on a 64-bit platform. -/
theorem eventCallback_forwards_exact_witness :
    cgoEventCallback 64 { eventId := 3, tuner := 1, params := 0x10, cbContext := 0x20 }
      = HostCall.event 3 1 0x10 0x20 :=
  eventCallback_forwards_exact 64
    { eventId := 3, tuner := 1, params := 0x10, cbContext := 0x20 }
    (by norm_num) (by norm_num) (by norm_num) (by norm_num) (by norm_num)
    (by norm_num)

/-- C4: `wrapper_api_Init` returns the status code produced by the driver's
initialization entry point unchanged and uninterpreted — whatever code the
driver returns is handed back with no translation, retry or recovery. -/
theorem init_status_passthrough (w : Nat)
    (driverInit : Nat → CallbackFnsT → Nat → Int) (dev : Nat) (s : Int)
    (hs : ∀ d tbl ctx, driverInit d tbl ctx = s) :
    wrapper_api_Init w driverInit dev = s := by
  unfold wrapper_api_Init
  exact hs dev _ dev

/-- Witness for C4, at the spec's example: the simulated driver returns
status code 7 and `wrapper_api_Init` returns 7. -/
theorem init_status_passthrough_witness :
    wrapper_api_Init 64 (fun _ _ _ => 7) 5 = 7 :=
  init_status_passthrough 64 (fun _ _ _ => 7) 5 7 (fun _ _ _ => rfl)

/-- C5: `wrapper_api_Init` invokes the driver's initialization entry point
with a callback table whose three slots are exactly the three trampolines,
with `dev` as the device argument, and with `dev` again (reinterpreted as a
pointer, an identity on the address) as the user-context value. -/
theorem init_populates_table (w : Nat)
    (driverInit : Nat → CallbackFnsT → Nat → Int) (dev : Nat) :
    wrapper_api_Init w driverInit dev
      = driverInit dev
          { StreamACbFn := fun a => cgoStreamACallback w a,
            StreamBCbFn := fun a => cgoStreamBCallback w a,
            EventCbFn := fun a => cgoEventCallback w a }
          dev := rfl

/-- C6: every native callback invocation produces exactly one invocation of
the corresponding host receiver, in the same order — over any delivery
sequence the adapter emits one host call per native call (same length) and
the i-th host call is exactly the forwarding of the i-th native call, so
nothing is buffered, coalesced, dropped or reordered. -/
theorem adapter_one_to_one_ordered (w : Nat) (calls : List NativeCall) :
    (runAdapter w calls).length = calls.length
    ∧ ∀ i : Nat, (runAdapter w calls)[i]? = (calls[i]?).map (forwardOne w) := by
  constructor
  · simp [runAdapter_eq_map]
  · intro i
    simp [runAdapter_eq_map]

/-- C7: the forwarding operations never read or write the memory addressed
by the buffer and structure pointers — in the memory-explicit embedding each
trampoline leaves the memory state unchanged, and the forwarded host call is
independent of the memory contents. -/
theorem adapter_no_memory_access (w : Nat) (mem mem2 : Mem)
    (a : StreamCbArgs) (e : EventCbArgs) :
    (cgoStreamACallbackMem w mem a).1 = mem
    ∧ (cgoStreamBCallbackMem w mem a).1 = mem
    ∧ (cgoEventCallbackMem w mem e).1 = mem
    ∧ (cgoStreamACallbackMem w mem a).2 = (cgoStreamACallbackMem w mem2 a).2
    ∧ (cgoStreamBCallbackMem w mem a).2 = (cgoStreamBCallbackMem w mem2 a).2
    ∧ (cgoEventCallbackMem w mem e).2 = (cgoEventCallbackMem w mem2 e).2 :=
  ⟨rfl, rfl, rfl, rfl, rfl, rfl⟩

/-- C8: the adapter is stateless and deterministic — the host call forwarded
for a native call `c` is the same after any two prior delivery histories,
and is always exactly `forwardOne w c`, independent of earlier invocations. -/
theorem adapter_stateless_history_independent (w : Nat)
    (pre1 pre2 : List NativeCall) (c : NativeCall) :
    (runAdapter w (pre1 ++ [c])).getLast?
      = (runAdapter w (pre2 ++ [c])).getLast?
    ∧ (runAdapter w (pre1 ++ [c])).getLast? = some (forwardOne w c) := by
  have hlast : ∀ pre : List NativeCall,
      (runAdapter w (pre ++ [c])).getLast? = some (forwardOne w c) := by
    intro pre
    rw [runAdapter_append]
    simp [runAdapter]
  exact ⟨(hlast pre1).trans (hlast pre2).symm, hlast pre1⟩

/-- C10: the stream trampolines perform no normalization of the reset flag —
any unsigned 32-bit reset value, including values other than 0 and 1, is
delivered to the host receiver exactly as supplied. -/
theorem reset_not_normalized (w : Nat) (a : StreamCbArgs)
    (hr : a.reset < 2 ^ 32) :
    (cgoStreamACallback w a).resetOf = a.reset
    ∧ (cgoStreamBCallback w a).resetOf = a.reset := by
  constructor <;>
    simp [cgoStreamACallback, cgoStreamBCallback, HostCall.resetOf,
      toGoUint32, Nat.mod_eq_of_lt hr] <;> omega

/-- Witness for C10: reset value 7, which is neither 0 nor 1, reaches the
host receiver as 7. -/
theorem reset_not_normalized_witness :
    (7 : Nat) ≠ 0 ∧ (7 : Nat) ≠ 1
    ∧ (cgoStreamACallback 64
        { xi := 1, xq := 2, params := 3, numSamples := 10, reset := 7,
          cbContext := 4 }).resetOf = 7 :=
  ⟨by norm_num, by norm_num,
    (reset_not_normalized 64
      { xi := 1, xq := 2, params := 3, numSamples := 10, reset := 7,
        cbContext := 4 } (by norm_num)).1⟩

end SdrplayCgo
